import Mathlib

/-!
A shallow embedding of the EzyCore model layer (`ezycore/models/core.py`)
and of the SQLAlchemy driver (`ezycore/drivers/sqlalchemy_driver.py`),
together with theorems checking the specification's claims against the
embedded code.

Python dictionaries are modelled as insertion-ordered association lists
with unique keys; Python exceptions are modelled with `Except`; the
backend store (query execution, row insertion) is passed in as an
explicit function parameter, matching the spec's "external collaborator"
boundary.
-/

namespace EzyCore

/-- Runtime values flowing through the layer: primitives plus model
instances, the latter tagged with the name of their model class. -/
inductive Value where
  | vInt (n : Int)
  | vStr (s : String)
  | vNone
  | vInst (modelName : String)
  deriving DecidableEq, Repr

/-- The Python exceptions the embedded fragment can raise. -/
inductive PyErr where
  | valueError (msg : String)
  | keyError (k : String)
  | modalMissingConfig (msg : String)
  | assertionError (msg : String)
  | validationError (msg : String)
  | attributeError
  | indexError
  deriving DecidableEq, Repr

/-- Python dict lookup `d.get(k)` / `d[k]` on an association list whose
keys are kept unique: first matching key wins. -/
def dictGet {α : Type} : List (String × α) → String → Option α
  | [], _ => none
  | (k, v) :: rest, key => if k = key then some v else dictGet rest key

/-- Python dict assignment `d[k] = v`: replace the value in place when the
key exists, otherwise append the pair (insertion order preserved). -/
def dictSet {α : Type} : List (String × α) → String → α → List (String × α)
  | [], k, v => [(k, v)]
  | (k', v') :: rest, k, v =>
      if k' = k then (k, v) :: rest else (k', v') :: dictSet rest k v

/-- Python `d.update(kvs)`: apply `dictSet` for each pair in order. -/
def dictUpdate {α : Type} (d : List (String × α)) (kvs : List (String × α)) :
    List (String × α) :=
  kvs.foldl (fun acc p => dictSet acc p.1 p.2) d

/-! ### models/core.py -/

/-- A pydantic field validator: `ModelField.validate` either returns the
coerced value or reports a field-level error message. -/
def FieldV : Type := Value → Except String Value

/-- The slice of a pydantic model class that `PartialRef.validate` uses:
the class's name (for the `isinstance` test), its `Config.search_by`
primary-key field name, and each declared field's own validator
(`__fields__`). -/
structure PModel where
  name : String
  search_by : String
  fields : List (String × FieldV)

/-- `isinstance(v, type_)` for a model class. -/
def isInst (M : PModel) (v : Value) : Bool :=
  match v with
  | .vInst n => n == M.name
  | _ => false

/-- `PartialRef.validate` (core.py lines 83-97): an instance of the
target model is passed through unchanged; any other value is run through
the target model's primary-key field's validator (`__fields__[search_by]`,
raising `KeyError` if that field does not exist), returning the coerced
primary-key value on success and raising a `ValidationError` wrapping the
underlying field error on failure. -/
def PartialRef.validate (M : PModel) (v : Value) : Except PyErr Value :=
  if isInst M v then .ok v
  else
    match dictGet M.fields M.search_by with
    | none => .error (.keyError M.search_by)
    | some fv =>
      match fv v with
      | .ok valid => .ok valid
      | .error e => .error (.validationError e)

/-- `Config` (core.py lines 8-32), without the internal fetch counter. -/
structure MConfig where
  search_by : String
  exclude : List String := []
  partials : List (String × String) := []
  invalidate_after : Int := -1
  deriving DecidableEq, Repr

/-- A config supplied as a plain mapping, as accepted by `Config(**r)`. -/
structure RawConfig where
  search_by : String
  exclude : List String := []
  partials : List (String × String) := []
  invalidate_after : Int := -1
  deriving DecidableEq, Repr

/-- `Config(**r)`: construct a `Config` from a mapping. -/
def configOfRaw (r : RawConfig) : MConfig :=
  ⟨r.search_by, r.exclude, r.partials, r.invalidate_after⟩

/-- How a `Model` subclass declares (or fails to declare) its `_config`
attribute: absent, a plain mapping, a `Config` instance, or a value of
some other type. -/
inductive ConfigSource where
  | missing
  | asDict (r : RawConfig)
  | asConfig (c : MConfig)
  | invalid
  deriving DecidableEq, Repr

/-- The declared type of one field annotation, as inspected by
`Model._read_partials`: an ordinary field, `PartialRef[N]` with `N` a
`Model` subclass (recorded by name), or `PartialRef[X]` with `X` not a
`Model` subclass. -/
inductive FieldType where
  | plain
  | partialRefModel (target : String)
  | partialRefNonModel
  deriving DecidableEq, Repr

/-- A `Model` subclass declaration: its `__annotations__` (in declaration
order) and its `_config` attribute. -/
structure ModelDecl where
  annots : List (String × FieldType)
  configSource : ConfigSource
  deriving DecidableEq, Repr

/-- `tuple(cls._read_partials())` (core.py lines 39-46): collect, in
order, the names of the fields annotated `PartialRef[N]`; raise
`ValueError` at a partial field whose referenced type is not a `Model`
subclass. -/
def read_partials : List (String × FieldType) → Except PyErr (List String)
  | [] => .ok []
  | (_, .plain) :: rest => read_partials rest
  | (k, .partialRefModel _) :: rest =>
      (read_partials rest).map (fun l => k :: l)
  | (k, .partialRefNonModel) :: _ =>
      .error (.valueError ("Invalid model provided for partial definition: " ++ k))

/-- The `missing` list of `Model._verify_partials` (core.py line 55):
discovered partial field names absent from the keys of
`Config.partials`. -/
def missingPartials (ps : List String) (cfg : MConfig) : List String :=
  ps.filter (fun i => !((cfg.partials.map Prod.fst).contains i))

/-- `Model._verify_partials` (core.py lines 48-57): fail with a
`ValueError` naming every missing partial field when the missing list is
non-empty. -/
def verify_partials (ps : List String) (cfg : MConfig) : Except PyErr Unit :=
  match missingPartials ps cfg with
  | [] => .ok ()
  | missing =>
      .error (.valueError
        ("Missing partial definitions for: " ++ String.intercalate ", " missing))

/-- The result of a successful `Model.__init_subclass__`: the resolved
config and the discovered partial field names (stored on the class as
`ezycore_internal__partials`). -/
structure ResolvedModel where
  config : MConfig
  partialsFound : List String
  deriving DecidableEq, Repr

/-- The config-resolution step of `Model.__init_subclass__` (core.py
lines 62-70): absent `_config` raises `ModalMissingConfig`, a mapping is
converted through `Config(**r)`, a `Config` instance is accepted as-is,
and any other value fails the `isinstance` assertion. -/
def resolveConfig : ConfigSource → Except PyErr MConfig
  | .missing => .error (.modalMissingConfig "_config variable not found")
  | .asDict r => .ok (configOfRaw r)
  | .asConfig c => .ok c
  | .invalid => .error (.assertionError "Invalid config class provided")

/-- `Model.__init_subclass__` (core.py lines 59-71): resolve the config,
then run `_verify_partials`. This runs at class-definition time; a
declaration for which it fails yields no `ResolvedModel`, so no instance
of the class can ever be constructed. -/
def init_subclass (decl : ModelDecl) : Except PyErr ResolvedModel :=
  match resolveConfig decl.configSource with
  | .error e => .error e
  | .ok cfg =>
    match read_partials decl.annots with
    | .error e => .error e
    | .ok ps =>
      match verify_partials ps cfg with
      | .error e => .error e
      | .ok _ => .ok ⟨cfg, ps⟩

/-! ### drivers/sqlalchemy_driver.py -/

/-- The slice of a bound pydantic model the driver uses: its declared
field names (`model.__fields__.keys()`) and its validating constructor
`model(**data)`, fused with `.dict()` into the canonical full field
mapping of the constructed instance (export projects that mapping further
through include/exclude). -/
structure DModel where
  fields : List String
  construct : List (String × Value) → Except PyErr (List (String × Value))

/-- `.dict(include=inc, exclude=exc)`: project an instance's field
mapping down to `include − exclude`. -/
def pydict (data : List (String × Value)) (inc exc : List String) :
    List (String × Value) :=
  data.filter (fun p => inc.contains p.1 && !(exc.contains p.1))

/-- Driver state (driver.py lines 32-35): model bindings, the reflected
headers snapshot, and the bidirectional location maps. -/
structure Driver where
  models : List (String × DModel)
  headers : List (String × List String)
  maps : List (String × String)
  rev_map : List (String × String)

/-- One step of the dict comprehension `{v: k for k, v in m.items()}`. -/
def invStep (acc : List (String × String)) (p : String × String) :
    List (String × String) :=
  dictSet acc p.2 p.1

/-- `{v: k for k, v in m.items()}`: invert a mapping; on a value
collision the later pair overwrites the earlier one. -/
def invertDict (m : List (String × String)) : List (String × String) :=
  m.foldl invStep []

/-- The driver constructor (driver.py lines 23-37): store the model
bindings and location map, compute `rev_map` as the inversion of `maps`;
`headers` is the schema-reflection snapshot obtained from the backend by
`_read_heads`, supplied here as data. -/
def Driver.mk0 (models : List (String × DModel))
    (headers : List (String × List String))
    (model_maps : List (String × String)) : Driver :=
  ⟨models, headers, model_maps, invertDict model_maps⟩

/-- `map_to_model` (driver.py lines 66-68): merge the new pairs into
`maps` and recompute `rev_map` from scratch. -/
def map_to_model (d : Driver) (kwds : List (String × String)) : Driver :=
  { d with
    maps := dictUpdate d.maps kwds,
    rev_map := invertDict (dictUpdate d.maps kwds) }

/-- `_get_model` (driver.py lines 53-57): try the exact key, then the
key translated through `maps`, then through `rev_map`; first hit wins. -/
def _get_model (d : Driver) (loc : String) : Option DModel :=
  match dictGet d.models loc with
  | some m => some m
  | none =>
    match (dictGet d.maps loc).bind (dictGet d.models) with
    | some m => some m
    | none => (dictGet d.rev_map loc).bind (dictGet d.models)

/-- `_model_fits` (driver.py lines 59-64): false when no model is bound;
otherwise check that the table's column set is a subset of the model's
field names. `self.__headers[location]` is indexed with the raw location,
so a location absent from the headers snapshot raises `KeyError`. -/
def _model_fits (d : Driver) (loc : String) : Except PyErr Bool :=
  match _get_model d loc with
  | none => .ok false
  | some m =>
    match dictGet d.headers loc with
    | none => .error (.keyError loc)
    | some cols => .ok (cols.all (fun c => m.fields.contains c))

/-- A raw backend row: a positional tuple of values. -/
abbrev Row := List Value

/-- The query handed to the backend: target table, optional raw
predicate text, optional row limit. -/
structure Query where
  table : String
  cond : Option String
  lim : Option Int
  deriving DecidableEq, Repr

/-- `fetchQuery d loc cond lim` is the query `fetch` builds (driver.py
lines 77-84): table resolved through `maps` with the location itself as
fallback, the condition applied only when non-empty, the limit only when
positive. -/
def fetchQuery (d : Driver) (loc cond : String) (lim : Int) : Query :=
  ⟨(dictGet d.maps loc).getD loc,
   (if cond = "" then none else some cond),
   (if lim > 0 then some lim else none)⟩

/-- The query `fetch_one` builds (driver.py lines 101-107): like `fetch`
but always limited to one row. -/
def fetchOneQuery (d : Driver) (loc : String) (cond : Option String) : Query :=
  ⟨(dictGet d.maps loc).getD loc,
   (match cond with
    | none => none
    | some c => if c = "" then none else some c),
   some 1⟩

/-- The lazy model-binding side effect shared by `fetch` and `fetch_one`
(driver.py lines 74-75 and 98-99): when a model argument is supplied and
no model resolves for the location, bind it. -/
def fetchBind (d : Driver) (loc : String) (marg : Option DModel) : Driver :=
  match marg, _get_model d loc with
  | some m, none => { d with models := dictSet d.models loc m }
  | _, _ => d

/-- The header zip of `_result_to_output` (driver.py line 47):
`{headers[head][i]: v for i, v in enumerate(result)}`; indexing past the
end of the header tuple raises `IndexError`. -/
def rowToNamed : List String → List Value → Except PyErr (List (String × Value))
  | _, [] => .ok []
  | [], _ :: _ => .error .indexError
  | h :: hs, v :: vs => (rowToNamed hs vs).map (fun rest => (h, v) :: rest)

/-- One step of the generator `_result_to_output` (driver.py lines
45-51) on a single row: look the table up in the headers snapshot, zip
the row, and when a model is given construct a model instance and emit
its canonical field mapping. -/
def convertRow (headers : List (String × List String)) (table : String)
    (model : Option DModel) (row : Row) : Except PyErr (List (String × Value)) :=
  match dictGet headers table with
  | none => .error (.keyError table)
  | some hdr =>
    match rowToNamed hdr row with
    | .error e => .error e
    | .ok data =>
      match model with
      | none => .ok data
      | some m => m.construct data

/-- What `fetch` hands back when it has a result: the raw row iterator
(`no_handle`), or the lazily-converted sequence, one conversion outcome
per row — conversion errors surface only when the corresponding element
is consumed. -/
inductive FetchOutput where
  | raw (rows : List Row)
  | handled (rows : List (Except PyErr (List (String × Value))))
  deriving Repr

/-- What `fetch_one` hands back for its single row. -/
inductive OneOutput where
  | raw (row : Row)
  | handled (data : List (String × Value))
  deriving DecidableEq, Repr

/-- `fetch` (driver.py lines 70-92): bind a supplied model if none
resolves, build and execute the query — an `SQLAlchemyError` is printed
and swallowed, yielding `none` — return `none` on an empty result set,
the raw rows under `no_handle`, and otherwise the lazily-converted
sequence. The returned driver carries the model-binding side effect. -/
def fetch (d : Driver) (loc cond : String) (lim : Int) (marg : Option DModel)
    (no_handle ignore_model : Bool)
    (exec : Query → Except String (List Row)) : Driver × Option FetchOutput :=
  let d1 := fetchBind d loc marg
  match exec (fetchQuery d loc cond lim) with
  | .error _ => (d1, none)
  | .ok results =>
    if results.isEmpty then (d1, none)
    else if no_handle then (d1, some (.raw results))
    else (d1, some (.handled (results.map
      (convertRow d.headers ((dictGet d.maps loc).getD loc)
        (if ignore_model then none else _get_model d1 loc)))))

/-- `fetch_one` (driver.py lines 94-115): same pipeline limited to one
row; the single conversion happens eagerly via `next(...)`, so a
conversion error propagates out of `fetch_one` itself. -/
def fetch_one (d : Driver) (loc : String) (cond : Option String)
    (marg : Option DModel) (no_handle ignore_model : Bool)
    (exec : Query → Except String (List Row)) :
    Driver × Except PyErr (Option OneOutput) :=
  let d1 := fetchBind d loc marg
  match exec (fetchOneQuery d loc cond) with
  | .error _ => (d1, .ok none)
  | .ok results =>
    match results.head? with
    | none => (d1, .ok none)
    | some r =>
      if no_handle then (d1, .ok (some (.raw r)))
      else
        match convertRow d.headers ((dictGet d.maps loc).getD loc)
            (if ignore_model then none else _get_model d1 loc) r with
        | .ok nr => (d1, .ok (some (.handled nr)))
        | .error e => (d1, .error e)

/-- An item of the export stream: an untyped mapping or an
already-constructed model instance (represented by its field mapping). -/
inductive ExportItem where
  | dict (data : List (String × Value))
  | inst (data : List (String × Value))
  deriving DecidableEq, Repr

/-- What happened to one processed export item: committed with the
projected row data, or rolled back after a logged backend error. -/
inductive ItemOutcome where
  | committed (data : List (String × Value))
  | rolledBack (msg : String)
  deriving DecidableEq, Repr

/-- The observable outcome of an `export` call: the per-item outcomes of
the items that reached the insertion stage, and the uncaught exception
that terminated the call, if any. -/
structure ExportTrace where
  outcomes : List ItemOutcome
  err : Option PyErr
  deriving DecidableEq, Repr

/-- The first stage of the export loop body (driver.py lines 124-127):
a dict item is coerced through the bound model; an instance item is used
as-is; a dict item with no bound model reaches `data.dict(...)` on a
plain dict, an `AttributeError`. -/
def itemInstance (model : Option DModel) :
    ExportItem → Except PyErr (List (String × Value))
  | .dict data =>
    match model with
    | some m => m.construct data
    | none => .error .attributeError
  | .inst data => .ok data

/-- The backend insertion capability: `session.add` + `session.commit`
for one row of a table, returning the `SQLAlchemyError` message on
failure. -/
abbrev InsertFn := String → List (String × Value) → Option String

/-- The export loop (driver.py lines 123-137). Model coercion and
projection run outside the `try` block, so their exceptions abort the
loop; only the add/commit step is guarded, where an `SQLAlchemyError` is
printed, the item rolled back, and the loop continued. -/
def exportLoop (model : Option DModel) (maps : List (String × String))
    (loc : String) (inc exc : List String) (ins : InsertFn) :
    List ExportItem → ExportTrace
  | [] => ⟨[], none⟩
  | it :: rest =>
    match itemInstance model it with
    | .error e => ⟨[], some e⟩
    | .ok instData =>
      match ins ((dictGet maps loc).getD loc) (pydict instData inc exc) with
      | none =>
        ⟨.committed (pydict instData inc exc) ::
           (exportLoop model maps loc inc exc ins rest).outcomes,
         (exportLoop model maps loc inc exc ins rest).err⟩
      | some m =>
        ⟨.rolledBack m ::
           (exportLoop model maps loc inc exc ins rest).outcomes,
         (exportLoop model maps loc inc exc ins rest).err⟩

/-- `set(self.__headers[location])`, the include default (driver.py line
120): raises `KeyError` when the raw location is absent from the headers
snapshot. -/
def headersDefault (d : Driver) (loc : String) : Except PyErr (List String) :=
  match dictGet d.headers loc with
  | none => .error (.keyError loc)
  | some cols => .ok cols

/-- `include = include or set(self.__headers[location])` (driver.py line
120): `None` and the empty set are both falsy, so either falls back to
the table's full column set. -/
def resolveInclude (d : Driver) (loc : String) (incl : Option (List String)) :
    Except PyErr (List String) :=
  match incl with
  | some l => if l.isEmpty then headersDefault d loc else .ok l
  | none => headersDefault d loc

/-- The body of `export` after the precondition (driver.py lines
119-137): resolve the bound model and the include/exclude projection,
then run the loop. -/
def exportBody (d : Driver) (loc : String) (stream : List ExportItem)
    (incl excl : Option (List String)) (ins : InsertFn) : ExportTrace :=
  match resolveInclude d loc incl with
  | .error e => ⟨[], some e⟩
  | .ok inc =>
    exportLoop (_get_model d loc) d.maps loc inc
      (match excl with | none => [] | some l => l) ins stream

/-- The message of the `export` precondition assertion (driver.py line
118). -/
def exportAssertMsg : String :=
  "Incorrect model or no model binded for this table"

/-- `export` (driver.py lines 117-137): assert `_model_fits` — its
`KeyError` or the `AssertionError` abort the call before any item is
touched — then run the per-item loop. -/
def exportData (d : Driver) (loc : String) (stream : List ExportItem)
    (incl excl : Option (List String)) (ins : InsertFn) : ExportTrace :=
  match _model_fits d loc with
  | .error e => ⟨[], some e⟩
  | .ok false => ⟨[], some (.assertionError exportAssertMsg)⟩
  | .ok true => exportBody d loc stream incl excl ins

/-- Discriminator for `Except`: did the computation succeed? -/
def isOkE {α : Type} : Except PyErr α → Bool
  | .ok _ => true
  | .error _ => false

/-! ### Concrete fixtures used by witnesses and counterexamples -/

/-- A target model class `N` with integer primary key `id`. -/
def pModelN : PModel :=
  ⟨"N", "id", [("id", fun v =>
    match v with
    | Value.vInt n => .ok (Value.vInt n)
    | _ => .error "value is not a valid integer")]⟩

/-- A bound driver model over the single column `id`, rejecting rows
whose `id` is not an integer. -/
def cModel2 : DModel :=
  ⟨["id"], fun data =>
    match dictGet data "id" with
    | some (Value.vInt n) => .ok [("id", Value.vInt n)]
    | _ => .error (.validationError "coercion failed")⟩

/-- A bound driver model over the single column `id` that accepts any
mapping unchanged. -/
def dmId : DModel := ⟨["id"], fun data => .ok data⟩

/-- An insertion backend that fails (only) on the row whose `id` is 1. -/
def insBoom : InsertFn :=
  fun _ data => if dictGet data "id" = some (Value.vInt 1) then some "boom" else none

/-! ### Helper lemmas -/

theorem dictGet_dictSet_self {α : Type} (d : List (String × α)) (k : String) (v : α) :
    dictGet (dictSet d k v) k = some v := by
  induction d with
  | nil => simp [dictSet, dictGet]
  | cons p rest ih =>
    obtain ⟨k', v'⟩ := p
    by_cases h : k' = k
    · simp [dictSet, h, dictGet]
    · simp [dictSet, h, dictGet, ih]

theorem dictGet_dictSet_ne {α : Type} (d : List (String × α)) (k k' : String)
    (v : α) (h : k ≠ k') : dictGet (dictSet d k v) k' = dictGet d k' := by
  induction d with
  | nil => simp [dictSet, dictGet, h]
  | cons p rest ih =>
    obtain ⟨k₁, v₁⟩ := p
    by_cases h₁ : k₁ = k
    · simp [dictSet, h₁, dictGet, h]
    · simp only [dictSet, h₁, if_false, dictGet]
      by_cases h₂ : k₁ = k'
      · simp [h₂]
      · simp [h₂, ih]

theorem invFoldl_no_value (m : List (String × String))
    (acc : List (String × String)) (v : String)
    (h : ∀ p ∈ m, p.2 ≠ v) :
    dictGet (m.foldl invStep acc) v = dictGet acc v := by
  induction m generalizing acc with
  | nil => rfl
  | cons p rest ih =>
    rw [List.foldl_cons]
    rw [ih (invStep acc p) (fun q hq => h q (List.mem_cons_of_mem _ hq))]
    exact dictGet_dictSet_ne acc p.2 v p.1 (h p (List.mem_cons_self _ _))

theorem invFoldl_unique (m : List (String × String))
    (acc : List (String × String)) (k v : String)
    (hmem : (k, v) ∈ m) (hu : ∀ p ∈ m, p.2 = v → p.1 = k) :
    dictGet (m.foldl invStep acc) v = some k := by
  induction m generalizing acc with
  | nil => cases hmem
  | cons p rest ih =>
    rw [List.foldl_cons]
    by_cases hrest : ∃ q ∈ rest, q.2 = v
    · obtain ⟨⟨q₁, q₂⟩, hq, hqv⟩ := hrest
      have hqk : q₁ = k := hu (q₁, q₂) (List.mem_cons_of_mem _ hq) hqv
      subst hqk; subst hqv
      exact ih (invStep acc p) hq
        (fun r hr hrv => hu r (List.mem_cons_of_mem _ hr) hrv)
    · push_neg at hrest
      have hp : p.2 = v ∧ p.1 = k := by
        cases hmem with
        | head => exact ⟨rfl, rfl⟩
        | tail _ hm => exact absurd rfl (hrest (k, v) hm)
      rw [invFoldl_no_value rest _ v hrest]
      rw [invStep, hp.1, hp.2]
      exact dictGet_dictSet_self acc v k

theorem foldl_map_to_model_inv (calls : List (List (String × String)))
    (d : Driver) (h : d.rev_map = invertDict d.maps) :
    (calls.foldl map_to_model d).rev_map =
      invertDict (calls.foldl map_to_model d).maps := by
  induction calls generalizing d with
  | nil => exact h
  | cons c cs ih => exact ih (map_to_model d c) rfl

theorem init_subclass_config (decl : ModelDecl) (rm : ResolvedModel)
    (h : init_subclass decl = .ok rm) :
    resolveConfig decl.configSource = .ok rm.config := by
  cases hc : resolveConfig decl.configSource with
  | error e => simp [init_subclass, hc] at h
  | ok cfg =>
    cases hp : read_partials decl.annots with
    | error e => simp [init_subclass, hc, hp] at h
    | ok ps =>
      cases hv : verify_partials ps cfg with
      | error e => simp [init_subclass, hc, hp, hv] at h
      | ok u =>
        simp only [init_subclass, hc, hp, hv, Except.ok.injEq] at h
        rw [← h]

/-! ### Claims -/

/-- Claim C1: partial-reference coercion. For a field referencing model
`M`, validating a value that already is an instance of `M` returns it
unchanged; validating any other value runs `M`'s primary-key field's own
validator (the field named by `Config.search_by`): on success the stored
value is the coerced primary-key value, on failure a field-scoped
`ValidationError` carrying the underlying field error is raised. -/
theorem claim1 (M : PModel) (v : Value) (fv : FieldV)
    (hf : dictGet M.fields M.search_by = some fv) :
    (isInst M v = true → PartialRef.validate M v = .ok v) ∧
    (isInst M v = false →
      ∀ w, fv v = .ok w → PartialRef.validate M v = .ok w) ∧
    (isInst M v = false →
      ∀ e, fv v = .error e →
        PartialRef.validate M v = .error (.validationError e)) := by
  refine ⟨?_, ?_, ?_⟩
  · intro h; simp [PartialRef.validate, h]
  · intro h w hw; simp [PartialRef.validate, h, hf, hw]
  · intro h e he; simp [PartialRef.validate, h, hf, he]

/-- Witness for C1: with target model `N` (`search_by = "id"`, integer
`id`), an instance of `N` passes through unchanged, the bare value `7`
coerces to `7`, and the bare value `"abc"` raises a `ValidationError`
wrapping the `id` field's error. -/
theorem claim1_witness :
    PartialRef.validate pModelN (Value.vInst "N") = .ok (Value.vInst "N") ∧
    PartialRef.validate pModelN (Value.vInt 7) = .ok (Value.vInt 7) ∧
    PartialRef.validate pModelN (Value.vStr "abc") =
      .error (.validationError "value is not a valid integer") :=
  ⟨(claim1 pModelN (Value.vInst "N") _ rfl).1 rfl,
   (claim1 pModelN (Value.vInt 7) _ rfl).2.1 rfl _ rfl,
   (claim1 pModelN (Value.vStr "abc") _ rfl).2.2 rfl _ rfl⟩

/-- Claim C5: batch partial verification. For a model declaration whose
config resolves and whose partial annotations all reference model types,
if any discovered partial field name is absent from `Config.partials`,
class construction (`__init_subclass__`) fails with a `ValueError` whose
message names all the missing field names, not only the first. -/
theorem claim5 (decl : ModelDecl) (cfg : MConfig) (ps : List String)
    (hc : resolveConfig decl.configSource = .ok cfg)
    (hp : read_partials decl.annots = .ok ps)
    (hm : missingPartials ps cfg ≠ []) :
    init_subclass decl = .error (.valueError
      ("Missing partial definitions for: " ++
        String.intercalate ", " (missingPartials ps cfg))) := by
  cases h : missingPartials ps cfg with
  | nil => exact absurd h hm
  | cons a as => simp [init_subclass, hc, hp, verify_partials, h]

/-- Witness for C5: a declaration with partial fields `f` and `g`, both
absent from `Config.partials`, fails at definition time with an error
naming both. -/
theorem claim5_witness :
    init_subclass
      ⟨[("f", FieldType.partialRefModel "N"), ("x", FieldType.plain),
        ("g", FieldType.partialRefModel "P")],
       ConfigSource.asConfig ⟨"id", [], [], -1⟩⟩ =
      .error (.valueError "Missing partial definitions for: f, g") :=
  claim5 _ ⟨"id", [], [], -1⟩ ["f", "g"] rfl rfl (by decide)

/-- Claim C6: config resolution at definition time. A config given as a
mapping is converted into a `Config` value, a config given as a `Config`
instance is accepted as-is, and a missing config raises
`ModalMissingConfig` from `__init_subclass__` itself — declaring the
model never succeeds without a config. -/
theorem claim6 (decl : ModelDecl) :
    (decl.configSource = .missing →
      init_subclass decl =
        .error (.modalMissingConfig "_config variable not found")) ∧
    (∀ r, decl.configSource = .asDict r →
      resolveConfig decl.configSource = .ok (configOfRaw r) ∧
      ∀ rm, init_subclass decl = .ok rm → rm.config = configOfRaw r) ∧
    (∀ c, decl.configSource = .asConfig c →
      resolveConfig decl.configSource = .ok c ∧
      ∀ rm, init_subclass decl = .ok rm → rm.config = c) := by
  refine ⟨?_, ?_, ?_⟩
  · intro h; simp [init_subclass, h, resolveConfig]
  · intro r h
    refine ⟨by simp [h, resolveConfig], ?_⟩
    intro rm hrm
    have := init_subclass_config decl rm hrm
    rw [h] at this
    simp only [resolveConfig, Except.ok.injEq] at this
    exact this.symm
  · intro c h
    refine ⟨by simp [h, resolveConfig], ?_⟩
    intro rm hrm
    have := init_subclass_config decl rm hrm
    rw [h] at this
    simp only [resolveConfig, Except.ok.injEq] at this
    exact this.symm

/-- Witness for C6: a declaration without `_config` fails with
`ModalMissingConfig`; a mapping config resolves to the constructed
`Config`; a `Config`-instance config resolves to itself. -/
theorem claim6_witness :
    init_subclass ⟨[], ConfigSource.missing⟩ =
      .error (.modalMissingConfig "_config variable not found") ∧
    resolveConfig (ConfigSource.asDict ⟨"id", [], [("f", "seg")], -1⟩) =
      .ok (configOfRaw ⟨"id", [], [("f", "seg")], -1⟩) ∧
    resolveConfig (ConfigSource.asConfig ⟨"id", [], [], -1⟩) =
      .ok ⟨"id", [], [], -1⟩ :=
  ⟨(claim6 ⟨[], ConfigSource.missing⟩).1 rfl,
   ((claim6 ⟨[], ConfigSource.asDict ⟨"id", [], [("f", "seg")], -1⟩⟩).2.1 _ rfl).1,
   ((claim6 ⟨[], ConfigSource.asConfig ⟨"id", [], [], -1⟩⟩).2.2 _ rfl).1⟩

/-- Counterexample to C3 as stated: `rev_map` is not the exact inverse of
`maps` for colliding pairs. After mapping `a → t` and then `b → t`, the
pair `(a, t)` is still in `maps` but `rev_map[t] = b ≠ a`: the inversion
keeps only the last pair applied for each table value. -/
theorem claim3_cex :
    ("a", "t") ∈
      (map_to_model (map_to_model (Driver.mk0 [] [] []) [("a", "t")])
        [("b", "t")]).maps ∧
    dictGet
      (map_to_model (map_to_model (Driver.mk0 [] [] []) [("a", "t")])
        [("b", "t")]).rev_map "t" ≠ some "a" := by
  decide

/-- Claim C3 (amended): after any sequence of `map_to_model` calls,
`rev_map` equals the dict-comprehension inversion of `maps` — in which a
value collision is resolved last-write-wins — and therefore
`rev_map[v] = k` holds for every pair `(k, v)` of `maps` whose table
value `v` is not shared with another pair. -/
theorem claim3 (ms : List (String × DModel)) (hs : List (String × List String))
    (mm : List (String × String)) (calls : List (List (String × String)))
    (d : Driver) (hd : d = calls.foldl map_to_model (Driver.mk0 ms hs mm)) :
    d.rev_map = invertDict d.maps ∧
    ∀ k v, (k, v) ∈ d.maps →
      (∀ p ∈ d.maps, p.2 = v → p.1 = k) →
      dictGet d.rev_map v = some k := by
  have hinv : d.rev_map = invertDict d.maps := by
    rw [hd]; exact foldl_map_to_model_inv calls _ rfl
  refine ⟨hinv, ?_⟩
  intro k v hmem hu
  rw [hinv]
  exact invFoldl_unique d.maps [] k v hmem hu

/-- Witness for C3 (amended): after mapping `a → t` and then `b → u`,
the value `t` is unshared and `rev_map[t] = a`. -/
theorem claim3_witness :
    dictGet
      (List.foldl map_to_model (Driver.mk0 [] [] [])
        [[("a", "t")], [("b", "u")]]).rev_map "t" = some "a" :=
  (claim3 [] [] [] [[("a", "t")], [("b", "u")]] _ rfl).2 "a" "t"
    (by decide) (by decide)

/-- Claim C4: fetch never raises on a backend error. When the backend
fails the query with an `SQLAlchemyError`, `fetch` returns `none` (and
`fetch_one` returns `none` without raising); a query that succeeds with
zero rows likewise yields `none`, not an empty sequence. -/
theorem claim4 (d : Driver) (loc cond : String) (lim : Int)
    (marg : Option DModel) (nh im : Bool)
    (exec : Query → Except String (List Row))
    (cond1 : Option String)
    (exec1 : Query → Except String (List Row)) :
    ((∃ e, exec (fetchQuery d loc cond lim) = .error e) →
      (fetch d loc cond lim marg nh im exec).2 = none) ∧
    (exec (fetchQuery d loc cond lim) = .ok [] →
      (fetch d loc cond lim marg nh im exec).2 = none) ∧
    ((∃ e, exec1 (fetchOneQuery d loc cond1) = .error e) →
      (fetch_one d loc cond1 marg nh im exec1).2 = .ok none) ∧
    (exec1 (fetchOneQuery d loc cond1) = .ok [] →
      (fetch_one d loc cond1 marg nh im exec1).2 = .ok none) := by
  refine ⟨?_, ?_, ?_, ?_⟩
  · rintro ⟨e, he⟩; simp [fetch, he]
  · intro h; simp [fetch, h]
  · rintro ⟨e, he⟩; simp [fetch_one, he]
  · intro h; simp [fetch_one, h]

/-- Witness for C4: with the backend down, `fetch` on a concrete driver
returns `none`; with the backend returning zero rows, `fetch_one`
returns `none`. -/
theorem claim4_witness :
    (fetch (Driver.mk0 [] [("t", ["id"])] []) "t" "" (-1) none false false
      (fun _ => .error "backend down")).2 = none ∧
    (fetch_one (Driver.mk0 [] [("t", ["id"])] []) "t" none none false false
      (fun _ => .ok [])).2 = .ok none := by
  have h := claim4 (Driver.mk0 [] [("t", ["id"])] []) "t" "" (-1) none
    false false (fun _ => .error "backend down") none (fun _ => .ok [])
  exact ⟨h.1 ⟨"backend down", rfl⟩, h.2.2.2 rfl⟩

/-- Counterexample to C2 as stated: a structural-coercion failure does
NOT leave later items attempted. With three dict items of which the
second fails coercion into the bound model, export commits item 1 and
then aborts with the uncaught validation error: item 2 produces no
logged rollback and item 3 is never attempted (only one outcome is
recorded, not three). -/
theorem claim2_cex :
    exportData (Driver.mk0 [("t", cModel2)] [("t", ["id"])] []) "t"
      [ExportItem.dict [("id", Value.vInt 1)],
       ExportItem.dict [("id", Value.vStr "x")],
       ExportItem.dict [("id", Value.vInt 3)]] none none (fun _ _ => none) =
    ⟨[ItemOutcome.committed [("id", Value.vInt 1)]],
     some (PyErr.validationError "coercion failed")⟩ := by
  decide

/-- Claim C2 (amended): export failure isolation holds for backend
insertion errors only. An `SQLAlchemyError` at add/commit of item `k`
rolls back and logs only that item and the loop continues with the rest,
so when every item passes structural coercion the loop processes all
items and never aborts; but an item that fails structural coercion into
the bound model raises out of `export`, and the items after it are not
attempted. -/
theorem claim2 (model : Option DModel) (maps : List (String × String))
    (loc : String) (inc exc : List String) (ins : InsertFn)
    (it : ExportItem) (instData : List (String × Value))
    (rest : List ExportItem) :
    (itemInstance model it = .ok instData →
      exportLoop model maps loc inc exc ins (it :: rest) =
        ⟨(match ins ((dictGet maps loc).getD loc) (pydict instData inc exc) with
           | none => ItemOutcome.committed (pydict instData inc exc)
           | some m => ItemOutcome.rolledBack m) ::
           (exportLoop model maps loc inc exc ins rest).outcomes,
         (exportLoop model maps loc inc exc ins rest).err⟩) ∧
    (∀ stream : List ExportItem,
      (∀ x ∈ stream, isOkE (itemInstance model x) = true) →
      (exportLoop model maps loc inc exc ins stream).err = none ∧
      (exportLoop model maps loc inc exc ins stream).outcomes.length =
        stream.length) := by
  constructor
  · intro h
    cases hins : ins ((dictGet maps loc).getD loc) (pydict instData inc exc) <;>
      simp [exportLoop, h, hins]
  · intro stream
    induction stream with
    | nil => intro _; exact ⟨rfl, rfl⟩
    | cons x xs ih =>
      intro hall
      have hx := hall x (List.mem_cons_self _ _)
      cases hxi : itemInstance model x with
      | error e => rw [hxi] at hx; simp [isOkE] at hx
      | ok v =>
        have ihr := ih (fun y hy => hall y (List.mem_cons_of_mem _ hy))
        cases hins : ins ((dictGet maps loc).getD loc) (pydict v inc exc) <;>
          simp [exportLoop, hxi, hins, ihr.1, ihr.2]

/-- Witness for C2 (amended): two well-coercing items where insertion of
the first fails with a backend error: the first is rolled back, the
second still committed, and the loop terminates without an uncaught
error, with one outcome per item. -/
theorem claim2_witness :
    exportLoop (some cModel2) [] "t" ["id"] [] insBoom
      [ExportItem.dict [("id", Value.vInt 1)],
       ExportItem.dict [("id", Value.vInt 2)]] =
      ⟨[ItemOutcome.rolledBack "boom",
        ItemOutcome.committed [("id", Value.vInt 2)]], none⟩ ∧
    (exportLoop (some cModel2) [] "t" ["id"] [] insBoom
      [ExportItem.dict [("id", Value.vInt 1)],
       ExportItem.dict [("id", Value.vInt 2)]]).err = none ∧
    (exportLoop (some cModel2) [] "t" ["id"] [] insBoom
      [ExportItem.dict [("id", Value.vInt 1)],
       ExportItem.dict [("id", Value.vInt 2)]]).outcomes.length = 2 := by
  have h := claim2 (some cModel2) [] "t" ["id"] [] insBoom
    (ExportItem.dict [("id", Value.vInt 1)]) [("id", Value.vInt 1)]
    [ExportItem.dict [("id", Value.vInt 2)]]
  have h2 := h.2 [ExportItem.dict [("id", Value.vInt 1)],
    ExportItem.dict [("id", Value.vInt 2)]] (by decide)
  exact ⟨h.1 rfl, h2.1, h2.2⟩

/-- Claim C7: export precondition. If no model is bound for the location,
or a model is bound but the table's column set is not a subset of its
field names, `export` aborts with the precondition assertion before any
item is processed and no row is inserted; and whenever `_model_fits`
holds, `export` proceeds into its body. -/
theorem claim7 (d : Driver) (loc : String) (stream : List ExportItem)
    (incl excl : Option (List String)) (ins : InsertFn) :
    (_get_model d loc = none →
      exportData d loc stream incl excl ins =
        ⟨[], some (.assertionError exportAssertMsg)⟩) ∧
    (∀ m cols, _get_model d loc = some m →
      dictGet d.headers loc = some cols →
      cols.all (fun c => m.fields.contains c) = false →
      exportData d loc stream incl excl ins =
        ⟨[], some (.assertionError exportAssertMsg)⟩) ∧
    (_model_fits d loc = .ok true →
      exportData d loc stream incl excl ins =
        exportBody d loc stream incl excl ins) := by
  refine ⟨?_, ?_, ?_⟩
  · intro h; simp [exportData, _model_fits, h]
  · intro m cols hm hc hall
    have hf : _model_fits d loc = .ok false := by
      simp only [_model_fits, hm, hc, hall]
    simp [exportData, hf]
  · intro h; simp [exportData, h]

/-- Witness for C7: a driver with no bound model aborts the export of a
one-item stream with the assertion error and an empty outcome list; a
fitting driver proceeds into the export body. -/
theorem claim7_witness :
    exportData (Driver.mk0 [] [("t", ["id"])] []) "t"
      [ExportItem.inst [("id", Value.vInt 1)]] none none (fun _ _ => none) =
      ⟨[], some (.assertionError exportAssertMsg)⟩ ∧
    exportData (Driver.mk0 [("t", dmId)] [("t", ["id"])] []) "t" []
      none none (fun _ _ => none) =
      exportBody (Driver.mk0 [("t", dmId)] [("t", ["id"])] []) "t" []
        none none (fun _ _ => none) :=
  ⟨(claim7 (Driver.mk0 [] [("t", ["id"])] []) "t"
      [ExportItem.inst [("id", Value.vInt 1)]] none none (fun _ _ => none)).1 rfl,
   (claim7 (Driver.mk0 [("t", dmId)] [("t", ["id"])] []) "t" []
      none none (fun _ _ => none)).2.2 rfl⟩

/-- Counterexample to C8 as stated: at a location that is a logical key
whose physical table name differs (so the key is absent from `headers`)
but for which no model resolves, `_model_fits` returns `false` without
raising any lookup error — the "raises instead of returning false"
behaviour requires a resolvable model. -/
theorem claim8_cex :
    dictGet (Driver.mk0 [] [("users", ["id"])] [("user", "users")]).maps
      "user" = some "users" ∧
    dictGet (Driver.mk0 [] [("users", ["id"])] [("user", "users")]).headers
      "user" = none ∧
    _model_fits (Driver.mk0 [] [("users", ["id"])] [("user", "users")])
      "user" = .ok false :=
  ⟨rfl, rfl, rfl⟩

/-- Claim C8 (amended): `_model_fits` and `export` index the headers
snapshot with the caller-supplied location directly, without translating
it through the location map. For every location absent from the headers
snapshot for which a model is resolvable, `_model_fits` raises a
`KeyError` on the location instead of returning false, `export` aborts
with that same `KeyError` before processing any item, and the
include-default computation raises the same `KeyError` as well. -/
theorem claim8 (d : Driver) (loc : String) (m : DModel)
    (hm : _get_model d loc = some m)
    (hh : dictGet d.headers loc = none) :
    _model_fits d loc = .error (.keyError loc) ∧
    (∀ stream incl excl ins,
      exportData d loc stream incl excl ins = ⟨[], some (.keyError loc)⟩) ∧
    resolveInclude d loc none = .error (.keyError loc) := by
  have hf : _model_fits d loc = .error (.keyError loc) := by
    simp [_model_fits, hm, hh]
  refine ⟨hf, ?_, ?_⟩
  · intro stream incl excl ins; simp [exportData, hf]
  · simp [resolveInclude, headersDefault, hh]

/-- Witness for C8 (amended): the logical key `user` maps to table
`users`, a model is bound under `users`, and `user` is absent from the
headers snapshot: `_model_fits` raises `KeyError user` and `export`
aborts with it before any item of a one-item stream is processed. -/
theorem claim8_witness :
    _model_fits (Driver.mk0 [("users", dmId)] [] [("user", "users")])
      "user" = .error (.keyError "user") ∧
    exportData (Driver.mk0 [("users", dmId)] [] [("user", "users")]) "user"
      [ExportItem.inst [("id", Value.vInt 1)]] none none (fun _ _ => none) =
      ⟨[], some (.keyError "user")⟩ := by
  have h := claim8 (Driver.mk0 [("users", dmId)] [] [("user", "users")])
    "user" dmId rfl rfl
  exact ⟨h.1, h.2.1 [ExportItem.inst [("id", Value.vInt 1)]] none none
    (fun _ _ => none)⟩

/-- Claim C9: an explicitly passed empty include set is treated the same
as an omitted include — `include or set(headers[location])` is falsy on
the empty set — so the export projection uses the table's full column
set, not the empty projection the caller requested. -/
theorem claim9 (d : Driver) (loc : String) (stream : List ExportItem)
    (excl : Option (List String)) (ins : InsertFn) :
    exportData d loc stream (some []) excl ins =
      exportData d loc stream none excl ins ∧
    (∀ cols, dictGet d.headers loc = some cols →
      resolveInclude d loc (some []) = .ok cols) := by
  constructor
  · cases hf : _model_fits d loc with
    | error e => simp [exportData, hf]
    | ok b =>
      cases b
      · simp [exportData, hf]
      · simp [exportData, hf, exportBody, resolveInclude]
  · intro cols hc; simp [resolveInclude, headersDefault, hc]

/-- Witness for C9: on a driver with table `t` having column `id`,
exporting with `include = ∅` equals exporting with include omitted, and
the empty include resolves to the full column set `[id]`. -/
theorem claim9_witness :
    exportData (Driver.mk0 [("t", dmId)] [("t", ["id"])] []) "t"
      [ExportItem.inst [("id", Value.vInt 1)]] (some []) none
      (fun _ _ => none) =
    exportData (Driver.mk0 [("t", dmId)] [("t", ["id"])] []) "t"
      [ExportItem.inst [("id", Value.vInt 1)]] none none
      (fun _ _ => none) ∧
    resolveInclude (Driver.mk0 [("t", dmId)] [("t", ["id"])] []) "t"
      (some []) = .ok ["id"] := by
  have h := claim9 (Driver.mk0 [("t", dmId)] [("t", ["id"])] []) "t"
    [ExportItem.inst [("id", Value.vInt 1)]] none (fun _ _ => none)
  exact ⟨h.1, h.2 ["id"] rfl⟩

/-- Claim C10: fetch's error swallowing covers only query execution, not
row conversion. When execution succeeds with a non-empty result set and
`no_handle` is false, `fetch` itself returns successfully with the
lazily-converted sequence, whose element for each row is that row's
conversion outcome — so a row failing validation surfaces its error at
the moment that element is consumed, after `fetch` has returned, and is
never turned into a `none` result. -/
theorem claim10 (d : Driver) (loc cond : String) (lim : Int)
    (marg : Option DModel) (im : Bool)
    (exec : Query → Except String (List Row)) (results : List Row)
    (h : exec (fetchQuery d loc cond lim) = .ok results)
    (hne : results ≠ []) :
    (fetch d loc cond lim marg false im exec).2 =
      some (.handled (results.map
        (convertRow d.headers ((dictGet d.maps loc).getD loc)
          (if im then none else _get_model (fetchBind d loc marg) loc)))) ∧
    (∀ r ∈ results, ∀ e,
      convertRow d.headers ((dictGet d.maps loc).getD loc)
        (if im then none else _get_model (fetchBind d loc marg) loc) r =
        .error e →
      (fetch d loc cond lim marg false im exec).2 ≠ none) := by
  have h1 : (fetch d loc cond lim marg false im exec).2 =
      some (.handled (results.map
        (convertRow d.headers ((dictGet d.maps loc).getD loc)
          (if im then none else _get_model (fetchBind d loc marg) loc)))) := by
    cases results with
    | nil => exact absurd rfl hne
    | cons a as => simp [fetch, h]
  exact ⟨h1, fun r _ e _ => by rw [h1]; simp⟩

/-- Witness for C10: a bound model that rejects the fetched row — fetch
still returns a one-element handled sequence whose element carries the
validation error, rather than returning `none`. -/
theorem claim10_witness :
    (fetch (Driver.mk0 [("t", cModel2)] [("t", ["id"])] []) "t" "" (-1)
      none false false (fun _ => .ok [[Value.vStr "bad"]])).2 =
      some (.handled [.error (.validationError "coercion failed")]) :=
  (claim10 (Driver.mk0 [("t", cModel2)] [("t", ["id"])] []) "t" "" (-1)
    none false (fun _ => .ok [[Value.vStr "bad"]]) [[Value.vStr "bad"]]
    rfl (by simp)).1

end EzyCore
